import Mathlib

/-!
Verification development for the darpi example web application
(`src/main.rs`, `src/handlers.rs`).

The repository ships only the application code; the darpi framework
(middleware chain executor, body-size / decompression / authorization
middleware, the blocking-job offloader, the JWT token service) and the
`models` / `middleware` modules are external collaborators.  Those parts
are modelled from the specification, each such definition carrying a doc
comment starting with `Modelled from the spec:`.  Everything else is a
direct shallow embedding of the Rust source.
-/

namespace Darpi

/-- HTTP methods used by the application routes (`main.rs` handler list). -/
inductive Method where
  | GET
  | POST
deriving DecidableEq, Repr

/-- Modelled from the spec: roles are an enumeration (`Role::Admin`,
`Role::User`); `middleware.rs`, which defines `Role`, is not in `src/`. -/
inductive Role where
  | Admin
  | User
deriving DecidableEq, Repr

/-- Modelled from the spec: role satisfaction for authorization
(`Admin` satisfies every requirement, `User` satisfies only `User`). -/
def roleSatisfies : Role → Role → Bool
  | Role.Admin, _ => true
  | Role.User, Role.User => true
  | Role.User, Role.Admin => false

/-- Modelled from the spec: a token encodes subject, role and an absolute
expiry; the flags model whether the opaque string decodes at all and
whether its signature matches the configured secret (JWT internals are
out of scope of `src/`). -/
structure Token where
  sub : String
  role : Role
  exp : Nat
  sigOk : Bool
  wellFormed : Bool
deriving DecidableEq, Repr

/-- Claims recovered from a successfully verified token. -/
structure Claims where
  sub : String
  role : Role
  exp : Nat
deriving DecidableEq, Repr

/-- Modelled from the spec: verification failure modes of the token service. -/
inductive AuthError where
  | Expired
  | InvalidSignature
  | Malformed
deriving DecidableEq, Repr

/-- Modelled from the spec: `issue(subject_id, role, ttl)` encodes subject,
role and absolute expiry `current time + ttl`, signed with the configured
secret (hence well formed with a valid signature). -/
def issue (sub : String) (role : Role) (ttl : Nat) (now : Nat) : Token :=
  { sub := sub, role := role, exp := now + ttl, sigOk := true, wellFormed := true }

/-- Modelled from the spec: `verify(token)` fails with `Malformed` if the
token cannot be decoded, `InvalidSignature` if it was not signed with the
configured secret, `Expired` if current time exceeds the encoded expiry,
and otherwise returns the claims. -/
def verify (t : Token) (now : Nat) : Except AuthError Claims :=
  if ¬ t.wellFormed then Except.error AuthError.Malformed
  else if ¬ t.sigOk then Except.error AuthError.InvalidSignature
  else if t.exp ≤ now then Except.error AuthError.Expired
  else Except.ok { sub := t.sub, role := t.role, exp := t.exp }

/-- Error taxonomy of the dispatcher (spec §7). -/
inductive HttpError where
  | BadRequest
  | Unauthorized
  | Forbidden
  | PayloadTooLarge
  | NotFound
  | InternalError
  | DecodeError
deriving DecidableEq, Repr

/-- Status-code mapping of the error taxonomy (spec §7). -/
def statusCode : HttpError → Nat
  | HttpError.BadRequest => 400
  | HttpError.Unauthorized => 401
  | HttpError.Forbidden => 403
  | HttpError.PayloadTooLarge => 413
  | HttpError.NotFound => 404
  | HttpError.InternalError => 500
  | HttpError.DecodeError => 400

/-- Login body `{email, password}` (`handlers.rs`, struct `Login`). -/
structure Login where
  email : String
  password : String
deriving DecidableEq, Repr

/-- Modelled from the spec: the new-user JSON body accepted by
`create_user`; `models.rs`, which defines `NewUser`, is not in `src/`. -/
structure NewUser where
  name : String
deriving DecidableEq, Repr

/-- Modelled from the spec: the persisted user record returned by the
database layer; `models.rs`, which defines `User`, is not in `src/`. -/
structure User where
  id : Nat
  name : String
deriving DecidableEq, Repr

/-- Modelled from the spec: typed application errors of the user handlers;
`handlers.rs` uses the `UserError::InternalError` variant, the rest of
`models.rs` is not in `src/`. -/
inductive UserError where
  | internalError
  | badInput
deriving DecidableEq, Repr

/-- Modelled from the spec: status mapping of typed handler errors at the
dispatcher boundary (`InternalError` → 500, bad user input → 400). -/
def userErrStatus : UserError → Nat
  | UserError.internalError => 500
  | UserError.badInput => 400

/-- An incoming request: method, path segments, body size in bytes, the
body's decoded forms (JSON decoding itself is transport-level and out of
scope), whether decompression of the body succeeds, and the bearer token
extracted from the headers. -/
structure Request where
  method : Method
  path : List String
  bodyLen : Nat
  bodyLogin : Option Login
  bodyNewUser : Option NewUser
  decompressOk : Bool
  token : Option Token
deriving DecidableEq, Repr

/-- The per-request environment: current time and the outcomes of the
external collaborators (token creator, database pool, offloader channel). -/
structure Env where
  now : Nat
  tokenCreateOk : Bool
  poolGetRes : Except UserError Unit
  dispatchOk : Bool
  recvOk : Bool
  dbCreateResult : Except UserError User
  dbFindResult : Except UserError (Option User)
deriving Repr

/-- A request-scoped middleware: a name (for tracing execution order) and
a run function that either passes or rejects with a typed error. -/
structure Mw where
  name : String
  run : Env → Request → Option HttpError

/-- Modelled from the spec: `body_size_limit(n)` rejects with
`PayloadTooLarge` if the body exceeds the configured byte threshold
(`darpi_middleware::body_size_limit` is not in `src/`). -/
def body_size_limit (limit : Nat) : Mw :=
  { name := "body_size_limit",
    run := fun _ req => if limit < req.bodyLen then some HttpError.PayloadTooLarge else none }

/-- Modelled from the spec: `decompress()` decodes a compressed body and
fails with `DecodeError` on malformed input
(`darpi_middleware::compression::decompress` is not in `src/`). -/
def decompress : Mw :=
  { name := "decompress",
    run := fun _ req => if req.decompressOk then none else some HttpError.DecodeError }

/-- Modelled from the spec: `authorize(role)` requires a previously
extracted token; it fails with `Unauthorized` if no valid token is
present, `Forbidden` if the token's role does not satisfy the
requirement, and passes otherwise (`darpi_middleware::auth::authorize`
is not in `src/`). -/
def authorize (required : Role) : Mw :=
  { name := "authorize",
    run := fun env req =>
      match req.token with
      | none => some HttpError.Unauthorized
      | some t =>
        match verify t env.now with
        | Except.error _ => some HttpError.Unauthorized
        | Except.ok c =>
          if roleSatisfies c.role required then none else some HttpError.Forbidden }

/-- Modelled from the spec: `roundtrip(..)` is a route middleware of
`middleware.rs` (not in `src/`) that passes, emitting a typed `String`
output which the `create_user` handler receives and ignores. -/
def roundtrip (_s : String) : Mw :=
  { name := "roundtrip", run := fun _ _ => none }

/-- Run an ordered middleware chain strictly in list order, recording the
names of the middleware that actually executed and the first rejection,
which short-circuits the chain (spec §4.3). -/
def runChain (env : Env) : List Mw → Request → List String × Option HttpError
  | [], _ => ([], none)
  | m :: ms, req =>
    match m.run env req with
    | some e => ([m.name], some e)
    | none =>
      let rest := runChain env ms req
      (m.name :: rest.1, rest.2)

/-- Global middleware registered in `main.rs`:
`request: [body_size_limit(128), decompress()]`. -/
def globalMw : List Mw := [body_size_limit 128, decompress]

/-- Route middleware of `create_user` declared in `handlers.rs`:
`request: [roundtrip("my string"), body_size_limit(128), authorize(Role::Admin)]`. -/
def createUserMw : List Mw := [roundtrip "my string", body_size_limit 128, authorize Role.Admin]

/-- A dispatcher response, extended with the trace data the properties
talk about: whether the handler was invoked and which middleware ran. -/
structure Response where
  status : Nat
  body : String
  handlerInvoked : Bool
  executed : List String
deriving DecidableEq, Repr

/-- Modelled from the spec: the token creator resolved from the container
(`JwtTokenCreatorImpl`, configured with the `"my secret"` HS256 secret in
`main.rs`); creation may fail, in which case the handler logs and
propagates the error. -/
def createToken (env : Env) (sub : String) (role : Role) (ttl : Nat) : Option Token :=
  if env.tokenCreateOk then some (issue sub role ttl env.now) else none

/-- Modelled from the spec: serialization of an issued token to the opaque
signed string returned in the response body. -/
def roleName : Role → String
  | Role.Admin => "Admin"
  | Role.User => "User"

/-- Modelled from the spec: the encoded token string (header, claims and
signature segments); tokens are a single opaque string in the body. -/
def encodeToken (t : Token) : String :=
  "jwt." ++ t.sub ++ "." ++ roleName t.role ++ "." ++ toString t.exp

/-- Seconds in `Duration::days(n)` (`darpi::chrono`). -/
def days (n : Nat) : Nat := n * 86400

/-- Shallow embedding of the `login` handler (`handlers.rs` lines 20–38):
the decoded body is ignored, role `Admin`, subject `"uid"` and a 30-day
ttl are hardcoded; a creation failure is propagated as an error. -/
def login (env : Env) (req : Request) : Nat × String :=
  match req.bodyLogin with
  | none => (statusCode HttpError.BadRequest, "")
  | some _ =>
    match createToken env "uid" Role.Admin (days 30) with
    | none => (statusCode HttpError.InternalError, "")
    | some tok => (200, encodeToken tok)

/-- Shallow embedding of the `home` handler (`handlers.rs` lines 45–48). -/
def home (_env : Env) (_req : Request) : Nat × String :=
  (200, "Welcome to darpi")

/-- Shallow embedding of the core of `create_user` (`handlers.rs` lines
60–80): `db_pool.pool().get()?`, then `darpi::oneshot(job)` whose
dispatch failure is mapped to `UserError::InternalError`, then the
receive on the result channel whose failure is also mapped to
`UserError::InternalError`, and finally the job's own typed result
propagated unchanged by `??`. -/
def create_userCore (env : Env) : Except UserError User :=
  match env.poolGetRes with
  | Except.error e => Except.error e
  | Except.ok _ =>
    if ¬ env.dispatchOk then Except.error UserError.internalError
    else if ¬ env.recvOk then Except.error UserError.internalError
    else env.dbCreateResult

/-- Shallow embedding of the core of `get_user` (`handlers.rs` lines
95–114): same offload structure as `create_userCore`, with the job
returning an optional user. -/
def get_userCore (env : Env) : Except UserError (Option User) :=
  match env.poolGetRes with
  | Except.error e => Except.error e
  | Except.ok _ =>
    if ¬ env.dispatchOk then Except.error UserError.internalError
    else if ¬ env.recvOk then Except.error UserError.internalError
    else env.dbFindResult

/-- Modelled from the spec: JSON serialization of a user record. -/
def encodeUserJson (u : User) : String :=
  "\x7b\"id\":" ++ toString u.id ++ ",\"name\":\"" ++ u.name ++ "\"\x7d"

/-- The `create_user` handler including its `#[body] Json<NewUser>`
extraction (generated by the `#[handler]` attribute): a body that does
not decode yields `BadRequest`; a typed handler error is mapped to a
status at the dispatcher boundary; success serializes the user as JSON. -/
def create_user (env : Env) (req : Request) : Nat × String :=
  match req.bodyNewUser with
  | none => (statusCode HttpError.BadRequest, "")
  | some _ =>
    match create_userCore env with
    | Except.error e => (userErrStatus e, "")
    | Except.ok u => (200, encodeUserJson u)

/-- The value of one decimal digit character. -/
def digitVal (c : Char) : Option Nat :=
  if c.isDigit then some (c.toNat - 48) else none

/-- Accumulating decimal parse of a character list. -/
def parseNatCore : List Char → Nat → Option Nat
  | [], acc => some acc
  | c :: cs, acc =>
    match digitVal c with
    | none => none
    | some d => parseNatCore cs (acc * 10 + d)

/-- Decimal parse of a whole string; fails on the empty string or any
non-digit character. -/
def parseNat (s : String) : Option Nat :=
  if s.data = [] then none else parseNatCore s.data 0

/-- i32 path-parameter parsing for `UserID` (`#[path] user_id: UserID`). -/
def parseUserId (s : String) : Option Nat :=
  match parseNat s with
  | none => none
  | some n => if n ≤ 2147483647 then some n else none

/-- The `get_user` handler including its `#[path] UserID` extraction:
an unparsable id yields `BadRequest`; `Ok(None)` is rendered as an empty
200 response (the declared `Option` semantics), `Ok(Some(u))` as the user
serialized to JSON. -/
def get_user (env : Env) (req : Request) : Nat × String :=
  match req.path with
  | [_, s] =>
    match parseUserId s with
    | none => (statusCode HttpError.BadRequest, "")
    | some _ =>
      match get_userCore env with
      | Except.error e => (userErrStatus e, "")
      | Except.ok none => (200, "")
      | Except.ok (some u) => (200, encodeUserJson u)
  | _ => (statusCode HttpError.BadRequest, "")

/-- Dispatch one matched route: run the global middleware followed by the
route middleware strictly in order; a rejection short-circuits to an
error response and the handler never runs; otherwise the handler runs. -/
def dispatchRoute (env : Env) (routeMw : List Mw)
    (handler : Env → Request → Nat × String) (req : Request) : Response :=
  let r := runChain env (globalMw ++ routeMw) req
  match r.2 with
  | some e => { status := statusCode e, body := "", handlerInvoked := false, executed := r.1 }
  | none =>
    let h := handler env req
    { status := h.1, body := h.2, handlerInvoked := true, executed := r.1 }

/-- The application's route table.  `"/"`, `"/login"` are registered in
`main.rs`; the `create_user` / `get_user` mounts are modelled from the
spec's interface table (§6: POST `/users`, GET `/users/{id}`), since the
`app!` block in `src/main.rs` does not list them.  Unmatched requests
fail with `NotFound`. -/
def serve (env : Env) (req : Request) : Response :=
  match req.method, req.path with
  | Method.GET, [] => dispatchRoute env [] home req
  | Method.POST, ["login"] => dispatchRoute env [] login req
  | Method.POST, ["users"] => dispatchRoute env createUserMw create_user req
  | Method.GET, ["users", _] => dispatchRoute env [] get_user req
  | _, _ =>
    { status := statusCode HttpError.NotFound, body := "",
      handlerInvoked := false, executed := [] }

/-- Boolean test for presence of a valid (extractable and verifying)
token on a request. -/
def hasValidToken (env : Env) (req : Request) : Bool :=
  match req.token with
  | none => false
  | some t =>
    match verify t env.now with
    | Except.ok _ => true
    | Except.error _ => false

/-- Modelled from the spec: the state of one submitted blocking job inside
the offloader (`darpi::oneshot` / `IOBlockingJob` are not in `src/`).
A job is either still pending, or has been executed with its result
waiting on the oneshot channel, or its result has been delivered to the
single waiter; `execCount` counts worker-thread executions. -/
structure OffloadState (α : Type) where
  pending : Option (Unit → α)
  result : Option α
  delivered : Option α
  execCount : Nat

/-- Modelled from the spec: submitting a job hands exclusive ownership of
the closure to the offloader; nothing has executed yet. -/
def submit {α : Type} (job : Unit → α) : OffloadState α :=
  { pending := some job, result := none, delivered := none, execCount := 0 }

/-- Scheduler events: a worker thread picks up pending work, or the
waiter receives from the oneshot channel. -/
inductive OffStep where
  | work
  | deliver
deriving DecidableEq, Repr

/-- Modelled from the spec: one scheduler event.  A worker executes the
pending job (consuming it, so it can never run again); delivery moves an
available result to the unique waiter exactly once. -/
def offStep {α : Type} : OffStep → OffloadState α → OffloadState α
  | OffStep.work, s =>
    match s.pending with
    | some j =>
      { s with pending := none, result := some (j ()), execCount := s.execCount + 1 }
    | none => s
  | OffStep.deliver, s =>
    match s.result, s.delivered with
    | some v, none => { s with result := none, delivered := some v }
    | _, _ => s

/-- Run a sequence of scheduler events. -/
def offRun {α : Type} : List OffStep → OffloadState α → OffloadState α
  | [], s => s
  | st :: rest, s => offRun rest (offStep st s)

/-- Invariant of the offloader for a submitted job: either the job is
still pending (never executed, nothing produced), or it has executed
exactly once and its own result sits either on the channel or with the
waiter. -/
def offInv {α : Type} (job : Unit → α) (s : OffloadState α) : Prop :=
  (s.pending = some job ∧ s.execCount = 0 ∧ s.result = none ∧ s.delivered = none)
  ∨ (s.pending = none ∧ s.execCount = 1 ∧
      ((s.result = some (job ()) ∧ s.delivered = none)
        ∨ (s.result = none ∧ s.delivered = some (job ()))))

/-- Valid TCP port strings: decimal, at most 65535 (`std::net` address
parsing of `"0.0.0.0:" + port`). -/
def parsePort (s : String) : Option Nat :=
  match parseNat s with
  | none => none
  | some n => if n ≤ 65535 then some n else none

/-- Startup failure modes of `main`. -/
inductive StartError where
  | missingPort
  | invalidAddress
deriving DecidableEq, Repr

/-- A successfully started server, ready to accept requests. -/
structure ServerRunning where
  port : Nat
deriving DecidableEq, Repr

/-- Shallow embedding of `main` (`main.rs` lines 44–49):
`std::env::var("PORT").unwrap()` aborts the process if the variable is
absent; the address `"0.0.0.0:" + port` is then bound by `app!(..).run()`.
Modelled from the spec for the binding step: an unparsable port makes the
bind fail at startup, before any request is accepted; requests are only
served from a `ServerRunning` state. -/
def mainStart (envVars : String → Option String) : Except StartError ServerRunning :=
  match envVars "PORT" with
  | none => Except.error StartError.missingPort
  | some p =>
    match parsePort p with
    | none => Except.error StartError.invalidAddress
    | some n => Except.ok { port := n }

/-! Concrete inputs used by the witness theorems. -/

/-- A benign environment: all collaborators succeed. -/
def env0 : Env :=
  { now := 1000, tokenCreateOk := true, poolGetRes := Except.ok (),
    dispatchOk := true, recvOk := true,
    dbCreateResult := Except.ok { id := 1, name := "ana" },
    dbFindResult := Except.ok none }

/-- An environment whose offload dispatch fails. -/
def envDispatchFail : Env :=
  { env0 with dispatchOk := false }

/-- A token issued to an admin, unexpired at `env0.now`. -/
def adminTok : Token := issue "uid" Role.Admin 500 1000

/-- A token issued to a plain user, unexpired at `env0.now`. -/
def userTok : Token := issue "u2" Role.User 500 1000

/-- A small create-user request without any token. -/
def baseReq : Request :=
  { method := Method.POST, path := ["users"], bodyLen := 10,
    bodyLogin := none, bodyNewUser := some { name := "bob" },
    decompressOk := true, token := none }

/-- An oversized create-user request carrying a valid admin token. -/
def bigAdminReq : Request :=
  { baseReq with bodyLen := 200, token := some adminTok }

/-- An oversized create-user request with no token at all. -/
def bigNoTokReq : Request :=
  { baseReq with bodyLen := 200 }

/-! Chain executor lemmas. -/

/-- The middleware that executed are always the first `k` of the declared
chain, in declaration order, for some `k`. -/
lemma runChain_names (env : Env) :
    ∀ (chain : List Mw) (req : Request),
      ∃ k, (runChain env chain req).1 = (chain.map Mw.name).take k := by
  intro chain
  induction chain with
  | nil => intro req; exact ⟨0, rfl⟩
  | cons m ms ih =>
    intro req
    cases h : m.run env req with
    | some e => exact ⟨1, by simp [runChain, h]⟩
    | none =>
      obtain ⟨k, hk⟩ := ih req
      exact ⟨k + 1, by simp [runChain, h, hk]⟩

/-- If no middleware rejected, every declared middleware executed, in
declaration order. -/
lemma runChain_none_names (env : Env) :
    ∀ (chain : List Mw) (req : Request),
      (runChain env chain req).2 = none →
      (runChain env chain req).1 = chain.map Mw.name := by
  intro chain
  induction chain with
  | nil => intro req _; rfl
  | cons m ms ih =>
    intro req h
    cases hr : m.run env req with
    | some e => simp [runChain, hr] at h
    | none =>
      have h2 : (runChain env ms req).2 = none := by
        simpa [runChain, hr] using h
      simp [runChain, hr, ih req h2]

/-- The trace of executed middleware recorded by `dispatchRoute` is the
trace of the full chain run. -/
lemma dispatchRoute_executed (env : Env) (mws : List Mw)
    (handler : Env → Request → Nat × String) (req : Request) :
    (dispatchRoute env mws handler req).executed
      = (runChain env (globalMw ++ mws) req).1 := by
  unfold dispatchRoute
  rcases h : (runChain env (globalMw ++ mws) req).2 with _ | e <;> simp [h]

/-- The handler is invoked exactly when no middleware rejected. -/
lemma dispatchRoute_invoked (env : Env) (mws : List Mw)
    (handler : Env → Request → Nat × String) (req : Request) :
    (dispatchRoute env mws handler req).handlerInvoked = true
      ↔ (runChain env (globalMw ++ mws) req).2 = none := by
  unfold dispatchRoute
  cases h : (runChain env (globalMw ++ mws) req).2 <;> simp [h]

/-- POST `/users` requests dispatch through the create-user chain. -/
lemma serve_users (env : Env) (req : Request)
    (hm : req.method = Method.POST) (hp : req.path = ["users"]) :
    serve env req = dispatchRoute env createUserMw create_user req := by
  cases req
  subst hm
  subst hp
  rfl

/-- A rejecting chain yields the error's status and skips the handler. -/
lemma dispatchRoute_reject (env : Env) (mws : List Mw)
    (handler : Env → Request → Nat × String) (req : Request) (e : HttpError)
    (h : (runChain env (globalMw ++ mws) req).2 = some e) :
    dispatchRoute env mws handler req
      = { status := statusCode e, body := "", handlerInvoked := false,
          executed := (runChain env (globalMw ++ mws) req).1 } := by
  unfold dispatchRoute
  simp [h]

/-- A fully passing chain hands the request to the handler. -/
lemma dispatchRoute_pass (env : Env) (mws : List Mw)
    (handler : Env → Request → Nat × String) (req : Request)
    (h : (runChain env (globalMw ++ mws) req).2 = none) :
    dispatchRoute env mws handler req
      = { status := (handler env req).1, body := (handler env req).2,
          handlerInvoked := true,
          executed := (runChain env (globalMw ++ mws) req).1 } := by
  unfold dispatchRoute
  simp [h]

/-- On the create-user chain, a request within the body limit whose body
decompresses passes the four leading middleware, so the chain's outcome
is exactly the authorization middleware's outcome. -/
lemma runChain_createUser (env : Env) (req : Request)
    (hb : req.bodyLen ≤ 128) (hd : req.decompressOk = true) :
    runChain env (globalMw ++ createUserMw) req
      = (["body_size_limit", "decompress", "roundtrip", "body_size_limit", "authorize"],
          (authorize Role.Admin).run env req) := by
  have h1 : ¬ (128 < req.bodyLen) := by omega
  simp [runChain, globalMw, createUserMw, body_size_limit, decompress, roundtrip, h1, hd]
  cases h : (authorize Role.Admin).run env req <;> simp [h, authorize]

/-- C1: a request body over the 128-byte limit is rejected with
`PayloadTooLarge` (413) by the first, global middleware and the handler
never runs, whatever token — valid admin or none — the request carries. -/
theorem oversized_body_rejected_before_auth (env : Env) (req : Request)
    (hm : req.method = Method.POST) (hp : req.path = ["users"])
    (hb : 128 < req.bodyLen) :
    (serve env req).status = 413 ∧ (serve env req).handlerInvoked = false := by
  rw [serve_users env req hm hp]
  unfold dispatchRoute
  simp [runChain, globalMw, createUserMw, body_size_limit, hb, statusCode]

/-- C1 witness: an oversized request with a valid admin token. -/
theorem oversized_body_rejected_before_auth_witness :
    (serve env0 bigAdminReq).status = 413
      ∧ (serve env0 bigAdminReq).handlerInvoked = false :=
  oversized_body_rejected_before_auth env0 bigAdminReq rfl rfl (by decide)

/-- C5: for the create-user route the executed middleware are the global
chain (`body_size_limit(128)`, `decompress()`) followed by the
route-specific chain (`roundtrip`, `body_size_limit(128)`,
`authorize(Admin)`) in exactly the declared order: the trace is always a
take of that list, and the handler runs only when the whole list ran. -/
theorem global_middleware_runs_before_route_middleware
    (env : Env) (req : Request)
    (hm : req.method = Method.POST) (hp : req.path = ["users"]) :
    (globalMw ++ createUserMw).map Mw.name
        = ["body_size_limit", "decompress", "roundtrip", "body_size_limit", "authorize"]
    ∧ (∃ k, (serve env req).executed = ((globalMw ++ createUserMw).map Mw.name).take k)
    ∧ ((serve env req).handlerInvoked = true →
        (serve env req).executed = (globalMw ++ createUserMw).map Mw.name) := by
  rw [serve_users env req hm hp]
  refine ⟨rfl, ?_, ?_⟩
  · rw [dispatchRoute_executed]
    exact runChain_names env (globalMw ++ createUserMw) req
  · intro h
    rw [dispatchRoute_executed]
    exact runChain_none_names env (globalMw ++ createUserMw) req
      ((dispatchRoute_invoked env createUserMw create_user req).mp h)

/-- C5 witness: a small admin-token request runs the full declared chain
and reaches the handler. -/
theorem global_middleware_runs_before_route_middleware_witness :
    (globalMw ++ createUserMw).map Mw.name
        = ["body_size_limit", "decompress", "roundtrip", "body_size_limit", "authorize"]
    ∧ (∃ k, (serve env0 { baseReq with token := some adminTok }).executed
          = ((globalMw ++ createUserMw).map Mw.name).take k)
    ∧ ((serve env0 { baseReq with token := some adminTok }).handlerInvoked = true →
        (serve env0 { baseReq with token := some adminTok }).executed
          = (globalMw ++ createUserMw).map Mw.name) :=
  global_middleware_runs_before_route_middleware env0
    { baseReq with token := some adminTok } rfl rfl

/-- C3 counterexample: an oversized request with no token to the
create-user route is answered with 413, not 401 — the claim's
unconditional `Unauthorized` promise fails because the global body-size
middleware runs first. -/
theorem missing_token_unauthorized_counterexample :
    bigNoTokReq.method = Method.POST
    ∧ bigNoTokReq.path = ["users"]
    ∧ bigNoTokReq.token = none
    ∧ (serve env0 bigNoTokReq).status = 413
    ∧ (serve env0 bigNoTokReq).status ≠ 401 := by
  decide

/-- C3 (amended): provided the request passes the earlier body-size and
decompression middleware, the create-user route returns 401 without
invoking the handler when no valid token is present, 403 when the
verified token's role does not satisfy `Admin`, and invokes the handler
when a valid admin token is present. -/
theorem create_user_admin_authorization (env : Env) (req : Request)
    (hm : req.method = Method.POST) (hp : req.path = ["users"])
    (hb : req.bodyLen ≤ 128) (hd : req.decompressOk = true) :
    (hasValidToken env req = false →
        (serve env req).status = 401 ∧ (serve env req).handlerInvoked = false)
    ∧ (∀ t c, req.token = some t → verify t env.now = Except.ok c →
        roleSatisfies c.role Role.Admin = false →
        (serve env req).status = 403 ∧ (serve env req).handlerInvoked = false)
    ∧ (∀ t c, req.token = some t → verify t env.now = Except.ok c →
        roleSatisfies c.role Role.Admin = true →
        (serve env req).handlerInvoked = true) := by
  rw [serve_users env req hm hp]
  have hchain := runChain_createUser env req hb hd
  refine ⟨?_, ?_, ?_⟩
  · intro hv
    have hrej : (runChain env (globalMw ++ createUserMw) req).2
        = some HttpError.Unauthorized := by
      rw [hchain]
      cases ht : req.token with
      | none => simp [authorize, ht]
      | some t =>
        cases hvv : verify t env.now with
        | error e => simp [authorize, ht, hvv]
        | ok c => simp [hasValidToken, ht, hvv] at hv
    rw [dispatchRoute_reject env createUserMw create_user req _ hrej]
    exact ⟨rfl, rfl⟩
  · intro t c ht hvv hrole
    have hrej : (runChain env (globalMw ++ createUserMw) req).2
        = some HttpError.Forbidden := by
      rw [hchain]
      simp [authorize, ht, hvv, hrole]
    rw [dispatchRoute_reject env createUserMw create_user req _ hrej]
    exact ⟨rfl, rfl⟩
  · intro t c ht hvv hrole
    have hpass : (runChain env (globalMw ++ createUserMw) req).2 = none := by
      rw [hchain]
      simp [authorize, ht, hvv, hrole]
    rw [dispatchRoute_pass env createUserMw create_user req hpass]

/-- C3 witness: without a token the route answers 401 and skips the
handler; with a valid admin token the handler is invoked. -/
theorem create_user_admin_authorization_witness :
    ((serve env0 baseReq).status = 401
      ∧ (serve env0 baseReq).handlerInvoked = false)
    ∧ (serve env0 { baseReq with token := some adminTok }).handlerInvoked = true :=
  ⟨(create_user_admin_authorization env0 baseReq rfl rfl (by decide) rfl).1 rfl,
   (create_user_admin_authorization env0 { baseReq with token := some adminTok }
      rfl rfl (by decide) rfl).2.2 adminTok
      { sub := "uid", role := Role.Admin, exp := 1500 } rfl rfl rfl⟩

/-- GET `/users/{id}` requests dispatch to `get_user` with no route
middleware of their own. -/
lemma serve_user_by_id (env : Env) (req : Request) (s : String)
    (hm : req.method = Method.GET) (hp : req.path = ["users", s]) :
    serve env req = dispatchRoute env [] get_user req := by
  cases req
  subst hm
  subst hp
  rfl

/-- POST `/login` requests dispatch to `login` with no route middleware. -/
lemma serve_login (env : Env) (req : Request)
    (hm : req.method = Method.POST) (hp : req.path = ["login"]) :
    serve env req = dispatchRoute env [] login req := by
  cases req
  subst hm
  subst hp
  rfl

/-- The global chain alone passes any request within the body limit whose
body decompresses. -/
lemma runChain_global (env : Env) (req : Request)
    (hb : req.bodyLen ≤ 128) (hd : req.decompressOk = true) :
    runChain env (globalMw ++ []) req = (["body_size_limit", "decompress"], none) := by
  have h1 : ¬ (128 < req.bodyLen) := by omega
  simp [runChain, globalMw, body_size_limit, decompress, h1, hd]

/-- C4: a user-by-id lookup that finds no row produces a 200 response
with an empty body — never a 404 — and a found row produces 200 with the
user serialized as JSON. -/
theorem get_user_missing_row_is_empty_200 (env : Env) (req : Request)
    (s : String) (n : Nat)
    (hm : req.method = Method.GET) (hp : req.path = ["users", s])
    (hid : parseUserId s = some n)
    (hb : req.bodyLen ≤ 128) (hd : req.decompressOk = true)
    (hpool : env.poolGetRes = Except.ok ())
    (hdisp : env.dispatchOk = true) (hrecv : env.recvOk = true) :
    (env.dbFindResult = Except.ok none →
        (serve env req).status = 200 ∧ (serve env req).body = ""
          ∧ (serve env req).handlerInvoked = true
          ∧ (serve env req).status ≠ 404)
    ∧ (∀ u, env.dbFindResult = Except.ok (some u) →
        (serve env req).status = 200 ∧ (serve env req).body = encodeUserJson u) := by
  rw [serve_user_by_id env req s hm hp]
  rw [dispatchRoute_pass env [] get_user req (by rw [runChain_global env req hb hd])]
  have hcore : ∀ r, env.dbFindResult = r → get_userCore env = r := by
    intro r hr
    unfold get_userCore
    rw [hpool]
    simp [hdisp, hrecv, hr]
  constructor
  · intro hfind
    simp [get_user, hp, hid, hcore _ hfind]
  · intro u hfind
    simp [get_user, hp, hid, hcore _ hfind]

/-- C4 witness: looking up id 1 in an empty table gives an empty 200. -/
theorem get_user_missing_row_is_empty_200_witness :
    (serve env0 { baseReq with method := Method.GET, path := ["users", "1"] }).status = 200
    ∧ (serve env0 { baseReq with method := Method.GET, path := ["users", "1"] }).body = ""
    ∧ (serve env0 { baseReq with method := Method.GET, path := ["users", "1"] }).handlerInvoked
        = true
    ∧ (serve env0 { baseReq with method := Method.GET, path := ["users", "1"] }).status ≠ 404 :=
  (get_user_missing_row_is_empty_200 env0
      { baseReq with method := Method.GET, path := ["users", "1"] } "1" 1
      rfl rfl (by decide) (by decide) rfl rfl rfl rfl).1 rfl

/-- An encoded token string is never empty. -/
lemma encodeToken_ne_empty (t : Token) : encodeToken t ≠ "" := by
  intro h
  have h2 := congrArg String.length h
  simp only [encodeToken, String.length_append] at h2
  have h3 : String.length "jwt." = 4 := rfl
  have h4 : String.length "" = 0 := rfl
  rw [h3, h4] at h2
  omega

/-- C8: a POST `/login` whose body decodes as `{email, password}` and
whose token creation succeeds is answered with 200 and a non-empty
signed token string. -/
theorem login_returns_nonempty_token (env : Env) (req : Request) (l : Login)
    (hm : req.method = Method.POST) (hp : req.path = ["login"])
    (hb : req.bodyLen ≤ 128) (hd : req.decompressOk = true)
    (hbody : req.bodyLogin = some l) (hc : env.tokenCreateOk = true) :
    (serve env req).status = 200 ∧ (serve env req).body ≠ "" := by
  rw [serve_login env req hm hp]
  rw [dispatchRoute_pass env [] login req (by rw [runChain_global env req hb hd])]
  simp [login, hbody, createToken, hc]
  exact encodeToken_ne_empty _

/-- A concrete login request used by the C8 witness. -/
def loginReq : Request :=
  { baseReq with
    path := ["login"],
    bodyLogin := some { email := "a@b.com", password := "x" } }

/-- C8 witness: a concrete login request. -/
theorem login_returns_nonempty_token_witness :
    (serve env0 loginReq).status = 200 ∧ (serve env0 loginReq).body ≠ "" :=
  login_returns_nonempty_token env0 loginReq
    { email := "a@b.com", password := "x" } rfl rfl (by decide) rfl rfl rfl

/-- C9: the login handler never inspects the submitted credentials — any
two decodable bodies give identical results in the same environment —
and when creation succeeds the issued token has subject `"uid"`, role
`Admin` and expiry `now + 30 days`. -/
theorem login_result_independent_of_credentials
    (env : Env) (req : Request) (l1 l2 : Login) :
    login env { req with bodyLogin := some l1 }
      = login env { req with bodyLogin := some l2 }
    ∧ (env.tokenCreateOk = true →
        login env { req with bodyLogin := some l1 }
          = (200, encodeToken (issue "uid" Role.Admin (days 30) env.now)))
    ∧ (issue "uid" Role.Admin (days 30) env.now).sub = "uid"
    ∧ (issue "uid" Role.Admin (days 30) env.now).role = Role.Admin
    ∧ (issue "uid" Role.Admin (days 30) env.now).exp = env.now + 30 * 86400 := by
  refine ⟨rfl, ?_, rfl, rfl, rfl⟩
  intro hc
  simp [login, createToken, hc]

/-- C9 witness: two different credential pairs at the same instant. -/
theorem login_result_independent_of_credentials_witness :
    login env0 { baseReq with bodyLogin := some { email := "a@b.com", password := "x" } }
      = login env0 { baseReq with bodyLogin := some { email := "c@d.org", password := "y" } }
    ∧ login env0 { baseReq with bodyLogin := some { email := "a@b.com", password := "x" } }
      = (200, encodeToken (issue "uid" Role.Admin (days 30) env0.now)) :=
  ⟨(login_result_independent_of_credentials env0 baseReq
      { email := "a@b.com", password := "x" } { email := "c@d.org", password := "y" }).1,
   (login_result_independent_of_credentials env0 baseReq
      { email := "a@b.com", password := "x" } { email := "c@d.org", password := "y" }).2.1 rfl⟩

/-- C2: in both offloading handlers a dispatch or result-channel failure
surfaces as `UserError::InternalError`, while a job that runs and reports
back has its own typed result propagated unchanged; a typed handler
error is mapped to its status code at the dispatcher boundary. -/
theorem offload_failure_is_internal_error (env : Env) :
    (env.poolGetRes = Except.ok () → env.dispatchOk = false →
        create_userCore env = Except.error UserError.internalError
        ∧ get_userCore env = Except.error UserError.internalError)
    ∧ (env.poolGetRes = Except.ok () → env.dispatchOk = true → env.recvOk = false →
        create_userCore env = Except.error UserError.internalError
        ∧ get_userCore env = Except.error UserError.internalError)
    ∧ (env.poolGetRes = Except.ok () → env.dispatchOk = true → env.recvOk = true →
        create_userCore env = env.dbCreateResult ∧ get_userCore env = env.dbFindResult)
    ∧ (∀ (req : Request) (nu : NewUser) (e : UserError),
        req.bodyNewUser = some nu → create_userCore env = Except.error e →
        create_user env req = (userErrStatus e, "")) := by
  refine ⟨?_, ?_, ?_, ?_⟩
  · intro hp hd
    unfold create_userCore get_userCore
    rw [hp]
    simp [hd]
  · intro hp hd hr
    unfold create_userCore get_userCore
    rw [hp]
    simp [hd, hr]
  · intro hp hd hr
    unfold create_userCore get_userCore
    rw [hp]
    simp [hd, hr]
  · intro req nu e hbody hcore
    unfold create_user
    rw [hbody, hcore]

/-- C2 witness: a failed dispatch yields `InternalError`; a working
offload hands back the job's own result. -/
theorem offload_failure_is_internal_error_witness :
    create_userCore envDispatchFail = Except.error UserError.internalError
    ∧ get_userCore env0 = env0.dbFindResult :=
  ⟨((offload_failure_is_internal_error envDispatchFail).1 rfl rfl).1,
   ((offload_failure_is_internal_error env0).2.2.1 rfl rfl rfl).2⟩

/-- C6: a token issued with ttl `T` verifies while the elapsed time is
strictly below `T` and fails with `Expired` from elapsed time `T` on —
in particular exactly at `T`. -/
theorem token_expires_at_ttl_boundary
    (sub : String) (role : Role) (ttl iss elapsed : Nat) :
    (elapsed < ttl →
        verify (issue sub role ttl iss) (iss + elapsed)
          = Except.ok { sub := sub, role := role, exp := iss + ttl })
    ∧ (ttl ≤ elapsed →
        verify (issue sub role ttl iss) (iss + elapsed)
          = Except.error AuthError.Expired) := by
  constructor
  · intro h
    have hlt : ¬ (iss + ttl ≤ iss + elapsed) := by omega
    simp [verify, issue, hlt]
  · intro h
    have hle : iss + ttl ≤ iss + elapsed := by omega
    simp [verify, issue, hle]

/-- C6 witness: a 5-second token at elapsed 4 verifies, at exactly 5 it
is `Expired`. -/
theorem token_expires_at_ttl_boundary_witness :
    verify (issue "uid" Role.Admin 5 100) (100 + 4)
      = Except.ok { sub := "uid", role := Role.Admin, exp := 105 }
    ∧ verify (issue "uid" Role.Admin 5 100) (100 + 5)
      = Except.error AuthError.Expired :=
  ⟨(token_expires_at_ttl_boundary "uid" Role.Admin 5 100 4).1 (by decide),
   (token_expires_at_ttl_boundary "uid" Role.Admin 5 100 5).2 (by decide)⟩

/-! Offloader invariant lemmas. -/

/-- One scheduler event preserves the offloader invariant. -/
lemma offStep_inv {α : Type} (job : Unit → α) (st : OffStep) (s : OffloadState α)
    (h : offInv job s) : offInv job (offStep st s) := by
  cases st with
  | work =>
    rcases h with ⟨hp, he, hr, hd⟩ | ⟨hp, he, hrest⟩
    · right
      simp [offStep, hp, he, hr, hd]
    · have hid : offStep OffStep.work s = s := by simp [offStep, hp]
      rw [hid]
      exact Or.inr ⟨hp, he, hrest⟩
  | deliver =>
    rcases h with ⟨hp, he, hr, hd⟩ | ⟨hp, he, hrest⟩
    · have hid : offStep OffStep.deliver s = s := by simp [offStep, hr]
      rw [hid]
      exact Or.inl ⟨hp, he, hr, hd⟩
    · rcases hrest with ⟨hr, hd⟩ | ⟨hr, hd⟩
      · right
        simp [offStep, hr, hd, hp, he]
      · have hid : offStep OffStep.deliver s = s := by simp [offStep, hr]
        rw [hid]
        exact Or.inr ⟨hp, he, Or.inr ⟨hr, hd⟩⟩

/-- Any event sequence preserves the offloader invariant. -/
lemma offRun_inv {α : Type} (job : Unit → α) :
    ∀ (steps : List OffStep) (s : OffloadState α),
      offInv job s → offInv job (offRun steps s) := by
  intro steps
  induction steps with
  | nil => intro s h; exact h
  | cons st rest ih => intro s h; exact ih _ (offStep_inv job st s h)

/-- A consumed (no longer pending) job can never become pending again. -/
lemma offStep_pending_none {α : Type} (st : OffStep) (s : OffloadState α)
    (h : s.pending = none) : (offStep st s).pending = none := by
  cases st with
  | work => simp [offStep, h]
  | deliver =>
    cases hr : s.result with
    | none => simp [offStep, hr, h]
    | some v =>
      cases hd : s.delivered with
      | none => simp [offStep, hr, hd, h]
      | some w => simp [offStep, hr, hd, h]

/-- Non-pendingness is preserved by any event sequence. -/
lemma offRun_pending_none {α : Type} :
    ∀ (steps : List OffStep) (s : OffloadState α),
      s.pending = none → (offRun steps s).pending = none := by
  intro steps
  induction steps with
  | nil => intro s h; exact h
  | cons st rest ih => intro s h; exact ih _ (offStep_pending_none st s h)

/-- A worker event always consumes the pending job, if any. -/
lemma offStep_work_pending {α : Type} (s : OffloadState α) :
    (offStep OffStep.work s).pending = none := by
  cases hp : s.pending <;> simp [offStep, hp]

/-- After a sequence containing a worker event, nothing is pending. -/
lemma offRun_work_mem {α : Type} :
    ∀ (steps : List OffStep) (s : OffloadState α),
      OffStep.work ∈ steps → (offRun steps s).pending = none := by
  intro steps
  induction steps with
  | nil => intro s h; cases h
  | cons st rest ih =>
    intro s h
    rcases List.mem_cons.mp h with h1 | h2
    · subst h1
      exact offRun_pending_none rest _ (offStep_work_pending s)
    · exact ih _ h2

/-- C7: under any scheduling of worker and delivery events, a submitted
job runs at most once — exactly once as soon as a worker picks it up —
and anything delivered to the unique waiter is the job's own result. -/
theorem job_runs_once_result_delivered_once {α : Type}
    (job : Unit → α) (steps : List OffStep) :
    (offRun steps (submit job)).execCount ≤ 1
    ∧ (∀ v, (offRun steps (submit job)).delivered = some v → v = job ())
    ∧ (OffStep.work ∈ steps → (offRun steps (submit job)).execCount = 1) := by
  have hsub : offInv job (submit job) := Or.inl ⟨rfl, rfl, rfl, rfl⟩
  have hinv := offRun_inv job steps (submit job) hsub
  rcases hinv with ⟨hp, he, _, hd⟩ | ⟨hp, he, hrest⟩
  · refine ⟨by omega, ?_, ?_⟩
    · intro v hv
      rw [hd] at hv
      cases hv
    · intro hw
      have := offRun_work_mem steps (submit job) hw
      rw [hp] at this
      cases this
  · refine ⟨by omega, ?_, fun _ => he⟩
    intro v hv
    rcases hrest with ⟨_, hd⟩ | ⟨_, hd⟩
    · rw [hd] at hv
      cases hv
    · rw [hd] at hv
      injection hv with hv
      exact hv.symm

/-- C7 witness: one worker pass and one delivery on a concrete job. -/
theorem job_runs_once_result_delivered_once_witness :
    (offRun [OffStep.work, OffStep.deliver] (submit (fun _ => (42 : Nat)))).execCount = 1
    ∧ (42 : Nat) = (fun _ : Unit => (42 : Nat)) () :=
  ⟨(job_runs_once_result_delivered_once (fun _ => (42 : Nat))
        [OffStep.work, OffStep.deliver]).2.2 (by simp),
   (job_runs_once_result_delivered_once (fun _ => (42 : Nat))
        [OffStep.work, OffStep.deliver]).2.1 42 rfl⟩

/-- C10: startup aborts when `PORT` is absent (the `unwrap` in `main`)
or does not parse as a port (the address bind), and a running server
implies a present, parsable `PORT` — so no request is ever accepted
under a missing or invalid port configuration. -/
theorem port_required_at_startup (envVars : String → Option String) :
    (envVars "PORT" = none → mainStart envVars = Except.error StartError.missingPort)
    ∧ (∀ p, envVars "PORT" = some p → parsePort p = none →
        mainStart envVars = Except.error StartError.invalidAddress)
    ∧ (∀ s, mainStart envVars = Except.ok s →
        ∃ p, envVars "PORT" = some p ∧ parsePort p = some s.port) := by
  refine ⟨?_, ?_, ?_⟩
  · intro h
    unfold mainStart
    rw [h]
  · intro p hp hparse
    unfold mainStart
    rw [hp]
    simp [hparse]
  · intro s hs
    cases he : envVars "PORT" with
    | none => simp [mainStart, he] at hs
    | some p =>
      cases hparse : parsePort p with
      | none => simp [mainStart, he, hparse] at hs
      | some n =>
        have hok : mainStart envVars = Except.ok { port := n } := by
          simp [mainStart, he, hparse]
        rw [hok] at hs
        injection hs with hs2
        exact ⟨p, rfl, by rw [← hs2]; exact hparse⟩

/-- C10 witness: a missing `PORT` and a non-numeric `PORT`. -/
theorem port_required_at_startup_witness :
    mainStart (fun _ => none) = Except.error StartError.missingPort
    ∧ mainStart (fun k => if k = "PORT" then some "abc" else none)
        = Except.error StartError.invalidAddress :=
  ⟨(port_required_at_startup (fun _ => none)).1 rfl,
   (port_required_at_startup (fun k => if k = "PORT" then some "abc" else none)).2.1
      "abc" (by simp) (by decide)⟩

end Darpi
